import Mathlib

/-!
Verification development for the TMCxx TMC5160 driver core.

Shallow embedding of the driver sources:
* `src/include/tmcxx/base/register_base.hpp` — register / field schema types;
* `src/include/tmcxx/chips/tmc5160_registers.hpp` — the concrete register tuple;
* `src/include/tmcxx/features/core_communicator.hpp` — datagram protocol and
  shadow cache (`write`, `read`, `write_field`, `read_field`, `get_shadow`);
* `src/include/tmcxx/features/converter.hpp` — unit conversion arithmetic;
* `src/include/tmcxx/detail/tmc5160_motion.hpp` — motion sequencer;
* `src/include/tmcxx/detail/tmc5160_register_access.hpp` — dynamic dispatch;
* `src/include/tmcxx/tmc5160.hpp` — `apply_default_configuration`.

Machine integers (`uint8_t`, `uint32_t`) are modelled as `Nat` with explicit
`% 2 ^ 32` reductions where the C++ performs an integral conversion.  The SPI
transport is modelled as an oracle (`Spi`) giving, for the k-th bus transfer,
its success flag and its 5-byte reply.  Every bus interaction is logged in the
driver state as `select` / `xfer` / `deselect` events in the order the C++
performs them (the `SPISelectGuard` destructor runs `deselect` after the
transfer on both the success and the failure path).
-/

namespace Tmcxx

/-- `tmcxx::helpers::ErrorCode` from `src/include/tmcxx/helpers/error.hpp`. -/
inductive ErrorCode where
  | SUCCESS
  | SPI_TRANSFER_FAILED
  | REGISTER_ACCESS_FAILED
  | INVALID_PARAMETER
  | TIMEOUT
  | CHIP_BUSY
  | NOT_IMPLEMENTED
  | UNKNOWN_ERROR
deriving DecidableEq, Repr

/-- `tmcxx::core::Access` from `src/include/tmcxx/base/register_base.hpp`. -/
inductive Access where
  | RO
  | WO
  | RW
deriving DecidableEq, Repr

/-- A register schema entry: `tmcxx::core::RegisterAddress<Addr, Acc, UnitType>`.
`isVolatile` records whether `UnitType` is the `core::Volatile` marker. -/
structure Register where
  address : Nat
  access : Access
  isVolatile : Bool
deriving DecidableEq, Repr

/-- A register field: `tmcxx::core::Field<RegAddr, StartBit, Length>`. -/
structure Field where
  register : Register
  startBit : Nat
  length : Nat
deriving DecidableEq, Repr

/-- `Field::mask = ((1 << Length) - 1) << StartBit`.  (In the C++ source the
expression `(uint32_t{1U} << Length) - 1U << StartBit` parses this way because
`-` binds tighter than `<<`.) -/
def Field.mask (f : Field) : Nat := ((1 <<< f.length) - 1) <<< f.startBit

/-- `Field::shift = StartBit`. -/
def Field.shift (f : Field) : Nat := f.startBit

-- Concrete registers of `chip::tmc5160::register_tuple`
-- (`src/include/tmcxx/chips/tmc5160_registers.hpp`).

def GCONF : Register := ⟨0x00, Access.RW, false⟩

def IHOLD_IRUN : Register := ⟨0x10, Access.RW, false⟩

def CHOPCONF : Register := ⟨0x6C, Access.RW, false⟩

def SW_MODE : Register := ⟨0x34, Access.RW, false⟩

def RAMPMODE : Register := ⟨0x20, Access.RW, false⟩

def XACTUAL : Register := ⟨0x21, Access.RW, true⟩

def VMAX : Register := ⟨0x27, Access.RW, false⟩

def AMAX : Register := ⟨0x26, Access.RW, false⟩

def GLOBAL_SCALER : Register := ⟨0x0B, Access.WO, false⟩

def XTARGET : Register := ⟨0x2D, Access.WO, false⟩

def VSTART : Register := ⟨0x23, Access.WO, false⟩

def A1 : Register := ⟨0x24, Access.WO, false⟩

def V1 : Register := ⟨0x25, Access.WO, false⟩

def DMAX : Register := ⟨0x28, Access.WO, false⟩

def D1 : Register := ⟨0x2A, Access.WO, false⟩

def VSTOP : Register := ⟨0x2B, Access.WO, false⟩

def TZEROWAIT : Register := ⟨0x2C, Access.WO, false⟩

def TWPOWER_DOWN : Register := ⟨0x11, Access.WO, false⟩

def PWMCONF : Register := ⟨0x70, Access.WO, false⟩

def GSTAT : Register := ⟨0x01, Access.RO, false⟩

def VACTUAL : Register := ⟨0x22, Access.RO, true⟩

def DRV_STATUS : Register := ⟨0x6F, Access.RO, false⟩

/-- The registers of `chip::tmc5160::register_tuple`, in declaration order. -/
def registerTuple : List Register :=
  [GCONF, IHOLD_IRUN, CHOPCONF, SW_MODE, RAMPMODE, XACTUAL, VMAX, AMAX,
   GLOBAL_SCALER, XTARGET, VSTART, A1, V1, DMAX, D1, VSTOP, TZEROWAIT,
   TWPOWER_DOWN, PWMCONF, GSTAT, VACTUAL, DRV_STATUS]

-- Fields of IHOLD_IRUN (0x10) and CHOPCONF (0x6C).

def IHOLD_IRUN_i_hold : Field := ⟨IHOLD_IRUN, 0, 5⟩

def IHOLD_IRUN_i_run : Field := ⟨IHOLD_IRUN, 8, 5⟩

def IHOLD_IRUN_i_hold_delay : Field := ⟨IHOLD_IRUN, 16, 4⟩

def CHOPCONF_toff : Field := ⟨CHOPCONF, 0, 4⟩

def CHOPCONF_hstrt : Field := ⟨CHOPCONF, 4, 3⟩

def CHOPCONF_hend : Field := ⟨CHOPCONF, 7, 4⟩

def CHOPCONF_tbl : Field := ⟨CHOPCONF, 15, 2⟩

def CHOPCONF_chm : Field := ⟨CHOPCONF, 14, 1⟩

-- Bus model ------------------------------------------------------------------

/-- One observable action on the SPI bus.  `xfer` records the transmitted
5-byte frame and whether the transport reported success. -/
inductive BusEvent where
  | select
  | xfer (tx : List Nat) (ok : Bool)
  | deselect
deriving DecidableEq, Repr

/-- The transport oracle: for the k-th transfer (counted from 0 over the
driver's lifetime), whether `TSpi::transfer` returns `true` and which 5 reply
bytes it places in the rx buffer. -/
structure Spi where
  okFn : Nat → Bool
  rxFn : Nat → List Nat

/-- Driver-visible state: the 128-slot shadow cache (`m_register_cache`,
zero-initialized; modelled as a total function on addresses), the ordered log
of bus events, and the number of transfers performed so far. -/
structure DriverState where
  cache : Nat → Nat
  events : List BusEvent
  count : Nat

/-- The state right after `CoreCommunicator` construction: zeroed cache,
nothing on the bus. -/
def initialState : DriverState :=
  { cache := fun _ => 0, events := [], count := 0 }

/-- The frames transmitted on the bus, extracted from the event log. -/
def txFrames (l : List BusEvent) : List (List Nat) :=
  l.filterMap fun e =>
    match e with
    | BusEvent.xfer tx _ => some tx
    | _ => none

/-- An event log is balanced when it is a concatenation of
`select · xfer · deselect` brackets: every transfer is preceded by exactly one
`select` and followed by exactly one `deselect`, so the bus is never left
selected. -/
def balancedB : List BusEvent → Bool
  | [] => true
  | BusEvent.select :: BusEvent.xfer _ _ :: BusEvent.deselect :: rest => balancedB rest
  | _ => false

/-- `CoreCommunicator::transfer`: bracketed single transfer.  The
`SPISelectGuard` selects on entry and deselects on scope exit, on the failure
path as well, so the three events are logged unconditionally. -/
def transfer (spi : Spi) (st : DriverState) (tx : List Nat) :
    Except ErrorCode Unit × DriverState :=
  let ok := spi.okFn st.count
  let st' : DriverState :=
    { cache := st.cache
      events := st.events ++ [BusEvent.select, BusEvent.xfer tx ok, BusEvent.deselect]
      count := st.count + 1 }
  (if ok then Except.ok () else Except.error ErrorCode.SPI_TRANSFER_FAILED, st')

/-- The 5-byte write datagram of `CoreCommunicator::write_raw`:
byte 0 is `addr | 0x80`, bytes 1..4 are `(val >> (8 * (3 - idx))) & 0xFF`. -/
def writeFrame (addr val : Nat) : List Nat :=
  [addr ||| 0x80,
   (val >>> 24) &&& 0xFF, (val >>> 16) &&& 0xFF, (val >>> 8) &&& 0xFF, val &&& 0xFF]

/-- `CoreCommunicator::write_raw`. -/
def write_raw (spi : Spi) (st : DriverState) (addr val : Nat) :
    Except ErrorCode Unit × DriverState :=
  transfer spi st (writeFrame addr val)

/-- `CoreCommunicator::write<RegType>(value)`: store the 32-bit value in the
shadow slot first, then transmit.  The `% 2 ^ 32` models the conversion of the
`unsigned_integral` argument to the `uint32_t` cache slot and frame bytes. -/
def write (r : Register) (val : Nat) (spi : Spi) (st : DriverState) :
    Except ErrorCode Unit × DriverState :=
  let v := val % 2 ^ 32
  let st1 : DriverState :=
    { st with cache := fun a => if a = r.address then v else st.cache a }
  write_raw spi st1 r.address v

/-- Byte `i` of an rx buffer (entries are `uint8_t`, hence the `&&& 0xFF`). -/
def rxByte (rx : List Nat) (i : Nat) : Nat := rx.getD i 0 &&& 0xFF

/-- `CoreCommunicator::read_raw`: two bracketed transfers; the first sends
`addr & 0x7F` (reply discarded), the second an all-zero frame whose reply
bytes 1..4 form the value, most-significant first. -/
def read_raw (spi : Spi) (st : DriverState) (addr : Nat) :
    Except ErrorCode Nat × DriverState :=
  match transfer spi st [addr &&& 0x7F, 0, 0, 0, 0] with
  | (Except.error e, st1) => (Except.error e, st1)
  | (Except.ok _, st1) =>
    match transfer spi st1 [0, 0, 0, 0, 0] with
    | (Except.error e, st2) => (Except.error e, st2)
    | (Except.ok _, st2) =>
      let rx := spi.rxFn st1.count
      (Except.ok ((rxByte rx 1 <<< 24) ||| (rxByte rx 2 <<< 16) |||
        (rxByte rx 3 <<< 8) ||| rxByte rx 4), st2)

/-- `CoreCommunicator::read<RegType>`: volatile or read-only registers go to
hardware, all others are served from the shadow cache with no transfer. -/
def read (r : Register) (spi : Spi) (st : DriverState) :
    Except ErrorCode Nat × DriverState :=
  if r.isVolatile || r.access = Access.RO then read_raw spi st r.address
  else (Except.ok (st.cache r.address), st)

/-- `CoreCommunicator::write_field<FieldType>(field_val)`: read-modify-write
against the cache slot of the parent register, then a full `write`.
`~mask` on `uint32_t` is `0xFFFFFFFF ^^^ mask`; the argument conversion to
`uint32_t` is the `% 2 ^ 32`. -/
def write_field (f : Field) (fieldVal : Nat) (spi : Spi) (st : DriverState) :
    Except ErrorCode Unit × DriverState :=
  let fv := fieldVal % 2 ^ 32
  let current := st.cache f.register.address
  let merged := (current &&& (0xFFFFFFFF ^^^ f.mask)) ||| ((fv <<< f.shift) &&& f.mask)
  write f.register merged spi st

/-- `CoreCommunicator::read_field<FieldType>`: read the parent register and
extract `(value & mask) >> shift`; the parent read's error propagates. -/
def read_field (f : Field) (spi : Spi) (st : DriverState) :
    Except ErrorCode Nat × DriverState :=
  match read f.register spi st with
  | (Except.error e, st1) => (Except.error e, st1)
  | (Except.ok v, st1) => (Except.ok ((v &&& f.mask) >>> f.shift), st1)

/-- `CoreCommunicator::get_shadow(addr)`: the cache slot for `addr < 128`,
`REGISTER_ACCESS_FAILED` for `addr >= m_register_cache.size()`.  (`addr` is a
`uint8_t`; the method is `const` and does not touch the bus.) -/
def get_shadow (st : DriverState) (addr : Nat) : Except ErrorCode Nat :=
  if 128 ≤ addr then Except.error ErrorCode.REGISTER_ACCESS_FAILED
  else Except.ok (st.cache addr)

-- Converter ------------------------------------------------------------------

/-- `features::Converter`'s calibration state (`src/include/tmcxx/features/converter.hpp`).
The C++ members are IEEE binary32 `float`; the arithmetic is modelled exactly
over `ℚ` (each float constant is embedded at its exact binary32 value, and the
per-operation float rounding is not modelled; every concrete evaluation below
keeps a wide margin from the decision boundaries this could move). -/
structure Converter where
  clock : ℚ
  fullSteps : ℚ
  rSense : ℚ

/-- The exact binary32 value of the literal `0.325f` (`v_fs`). -/
def vFsF : ℚ := 5452595 / 16777216

/-- The exact binary32 value of `std::numbers::sqrt2_v<float>`. -/
def sqrt2F : ℚ := 11863283 / 8388608

/-- `static_cast<int32_t>` of a float value: truncation toward zero. -/
def truncQ (q : ℚ) : ℤ := if 0 ≤ q then ⌊q⌋ else ⌈q⌉

/-- `Converter::current_to_cs(current)`:
`clamp(int32_t((current / i_max_rms) * 32 - 1), 0, 31)` with
`i_max_rms = (0.325f / r_sense) / sqrt2f`; the conversion to `int32_t`
truncates toward zero.  (`std::clamp(v, lo, hi) = max lo (min v hi)`.) -/
def Converter.current_to_cs (c : Converter) (current : ℚ) : Nat :=
  (max 0 (min (truncQ (current / ((vFsF / c.rSense) / sqrt2F) * 32 - 1)) 31)).toNat

/-- Modelled from the spec sentence of the claim (for comparison only):
`cs = clamp(round(current / rms_full_scale * 32) - 1, 0, 31)` — rounding to
nearest instead of the source's truncation. -/
def current_to_cs_specRound (c : Converter) (current : ℚ) : Nat :=
  (max 0 (min (round (current / ((vFsF / c.rSense) / sqrt2F) * 32) - 1) 31)).toNat

/-- `Converter::accel_to_register(accel)`:
`uint32_t(clamp(accel * 2^41 / clock^2, 1.0f, 65535.0f))`; the final cast
truncates, and the clamped value is ≥ 1, so it is the floor. -/
def Converter.accel_to_register (c : Converter) (accel : ℚ) : Nat :=
  (⌊max 1 (min (accel * 2 ^ 41 / (c.clock * c.clock)) 65535)⌋).toNat

-- Motion sequencer -----------------------------------------------------------

/-- `tl::expected::and_then` over the state-passing embedding: the first error
stops the chain and is returned unchanged. -/
def exBind (x : Except ErrorCode Unit × DriverState)
    (f : DriverState → Except ErrorCode Unit × DriverState) :
    Except ErrorCode Unit × DriverState :=
  match x with
  | (Except.ok _, s) => f s
  | (Except.error e, s) => (Except.error e, s)

/-- `TMC5160Motion::set_advanced_acceleration(start_accel, max_accel,
max_decel, stop_decel)`: A1, AMAX, DMAX then D1 via `and_then`, with the D1
value additionally clamped to `[1, 65535]`. -/
def set_advanced_acceleration (conv : Converter)
    (startAccel maxAccel maxDecel stopDecel : ℚ) (spi : Spi) (st : DriverState) :
    Except ErrorCode Unit × DriverState :=
  let clampedD1 := max 1 (min (conv.accel_to_register stopDecel) 65535)
  exBind (write A1 (conv.accel_to_register startAccel) spi st) fun s1 =>
    exBind (write AMAX (conv.accel_to_register maxAccel) spi s1) fun s2 =>
      exBind (write DMAX (conv.accel_to_register maxDecel) spi s2) fun s3 =>
        write D1 clampedD1 spi s3

/-- `Except.isOk`-style test used to model `tl::expected::has_value()`. -/
def isOkB (x : Except ErrorCode Unit) : Bool :=
  match x with
  | Except.ok _ => true
  | Except.error _ => false

/-- `tmcxx::is_all_ok(args...)`: every argument of the call is a write that is
evaluated (C++ evaluates all function arguments, in an unspecified order,
before the call; modelled left-to-right in source listing order), and the
results are conjoined. -/
def runAll (flag : Bool) (ops : List (DriverState → Except ErrorCode Unit × DriverState))
    (st : DriverState) : Bool × DriverState :=
  match ops with
  | [] => (flag, st)
  | op :: rest => runAll (flag && isOkB (op st).1) rest (op st).2

/-- The fifteen writes evaluated as arguments of the one `is_all_ok` call in
`TMC5160::apply_default_configuration`, in source listing order. -/
def defaultConfigurationWrites (spi : Spi) :
    List (DriverState → Except ErrorCode Unit × DriverState) :=
  [write VSTOP 100 spi, write V1 40000 spi, write AMAX 10000 spi,
   write DMAX 10000 spi, write A1 2000 spi, write D1 10000 spi,
   write TWPOWER_DOWN 10 spi,
   write_field IHOLD_IRUN_i_hold_delay 6 spi, write_field IHOLD_IRUN_i_hold 4 spi,
   write_field IHOLD_IRUN_i_run 16 spi,
   write_field CHOPCONF_toff 3 spi, write_field CHOPCONF_hstrt 4 spi,
   write_field CHOPCONF_hend 1 spi, write_field CHOPCONF_tbl 2 spi,
   write XTARGET 0 spi]

/-- The tail of `TMC5160::apply_default_configuration` after the `is_all_ok`
group: on group success the RAMPMODE = POSITIONING (0) write, whose result is
returned; otherwise `SPI_TRANSFER_FAILED`. -/
def applyDefaultFinish (spi : Spi) (g : Bool × DriverState) :
    Except ErrorCode Unit × DriverState :=
  if g.1 then write RAMPMODE 0 spi g.2
  else (Except.error ErrorCode.SPI_TRANSFER_FAILED, g.2)

/-- `TMC5160::apply_default_configuration`. -/
def apply_default_configuration (spi : Spi) (st : DriverState) :
    Except ErrorCode Unit × DriverState :=
  applyDefaultFinish spi (runAll true (defaultConfigurationWrites spi) st)

-- Dynamic register dispatch ---------------------------------------------------

/-- `TMC5160RegisterAccess::create_lookup_table()`: a 128-entry table filled,
in tuple order, with the read thunk of every register of `register_tuple`.
Modelled as a partial map from the address to the register it dispatches to. -/
def registerReadTable : Nat → Option Register :=
  registerTuple.foldl
    (fun t r => fun a => if a = r.address then some r else t a)
    (fun _ => none)

/-- `TMC5160RegisterAccess::create_set_lookup_table()`: like the read table,
but read-only registers get a null entry. -/
def registerSetTable : Nat → Option Register :=
  registerTuple.foldl
    (fun t r => fun a =>
      if a = r.address then (if r.access = Access.RO then none else some r) else t a)
    (fun _ => none)

/-- `TMC5160RegisterAccess::get_register_value(reg_address)`: bounds check
(`INVALID_PARAMETER` for index ≥ 128), null entry check (`INVALID_PARAMETER`),
then the dispatched `read`. -/
def get_register_value (addr : Nat) (spi : Spi) (st : DriverState) :
    Except ErrorCode Nat × DriverState :=
  if 128 ≤ addr then (Except.error ErrorCode.INVALID_PARAMETER, st)
  else
    match registerReadTable addr with
    | none => (Except.error ErrorCode.INVALID_PARAMETER, st)
    | some r => read r spi st

/-- `TMC5160RegisterAccess::set_register_value(reg_address, value)`: bounds
check (`INVALID_PARAMETER` for index ≥ 128), null entry check
(`REGISTER_ACCESS_FAILED`), then the dispatched `write`. -/
def set_register_value (addr val : Nat) (spi : Spi) (st : DriverState) :
    Except ErrorCode Unit × DriverState :=
  if 128 ≤ addr then (Except.error ErrorCode.INVALID_PARAMETER, st)
  else
    match registerSetTable addr with
    | none => (Except.error ErrorCode.REGISTER_ACCESS_FAILED, st)
    | some r => write r val spi st

/-- The short-circuiting body of `TMC5160RegisterAccess::get_all_registers`:
each fold element first checks the accumulated `success` flag (captured by
value) and skips the read entirely once it is false; a successful read appends
its value at the running index. -/
def getAllGo (spi : Spi) :
    List Register → Bool → List Nat → DriverState → Bool × List Nat × DriverState
  | [], success, acc, st => (success, acc, st)
  | r :: rest, success, acc, st =>
    if success then
      match read r spi st with
      | (Except.ok v, st1) => getAllGo spi rest true (acc ++ [v]) st1
      | (Except.error _, st1) => getAllGo spi rest false acc st1
    else getAllGo spi rest false acc st

/-- `TMC5160RegisterAccess::get_all_registers`: read every register of
`register_tuple` in order into slots 0, 1, ... of a zero-initialized 128-entry
array; a failed read makes the whole operation return `SPI_TRANSFER_FAILED`. -/
def get_all_registers (spi : Spi) (st : DriverState) :
    Except ErrorCode (List Nat) × DriverState :=
  match getAllGo spi registerTuple true [] st with
  | (true, acc, st1) => (Except.ok (acc ++ List.replicate (128 - acc.length) 0), st1)
  | (false, _, st1) => (Except.error ErrorCode.SPI_TRANSFER_FAILED, st1)

-- Concrete transport oracles used in witnesses and counterexamples -----------

/-- A transport whose every transfer fails. -/
def spiFail : Spi := ⟨fun _ => false, fun _ => [0, 0, 0, 0, 0]⟩

/-- A transport whose every transfer succeeds and replies with zero bytes. -/
def spiOk : Spi := ⟨fun _ => true, fun _ => [0, 0, 0, 0, 0]⟩

-- Helper lemmas about the protocol embedding --------------------------------

theorem write_result (r : Register) (v : Nat) (spi : Spi) (st : DriverState) :
    (write r v spi st).1 =
      if spi.okFn st.count then Except.ok ()
      else Except.error ErrorCode.SPI_TRANSFER_FAILED := rfl

theorem write_cache (r : Register) (v : Nat) (spi : Spi) (st : DriverState) :
    (write r v spi st).2.cache =
      fun a => if a = r.address then v % 2 ^ 32 else st.cache a := rfl

theorem write_events (r : Register) (v : Nat) (spi : Spi) (st : DriverState) :
    (write r v spi st).2.events =
      st.events ++ [BusEvent.select,
        BusEvent.xfer (writeFrame r.address (v % 2 ^ 32)) (spi.okFn st.count),
        BusEvent.deselect] := rfl

theorem write_count (r : Register) (v : Nat) (spi : Spi) (st : DriverState) :
    (write r v spi st).2.count = st.count + 1 := rfl

theorem write_field_eq (f : Field) (v : Nat) (spi : Spi) (st : DriverState) :
    write_field f v spi st =
      write f.register
        ((st.cache f.register.address &&& (0xFFFFFFFF ^^^ f.mask)) |||
          (((v % 2 ^ 32) <<< f.shift) &&& f.mask)) spi st := rfl

theorem read_cached (r : Register) (spi : Spi) (st : DriverState)
    (hvol : r.isVolatile = false) (hro : r.access ≠ Access.RO) :
    read r spi st = (Except.ok (st.cache r.address), st) := by
  simp [read, hvol, hro]

theorem txFrames_append (l1 l2 : List BusEvent) :
    txFrames (l1 ++ l2) = txFrames l1 ++ txFrames l2 := by
  simp [txFrames]

theorem txFrames_triple (t : List Nat) (b : Bool) :
    txFrames [BusEvent.select, BusEvent.xfer t b, BusEvent.deselect] = [t] := rfl

theorem read_cache_unchanged (r : Register) (spi : Spi) (st : DriverState) :
    (read r spi st).2.cache = st.cache := by
  by_cases h : r.isVolatile = true ∨ r.access = Access.RO
  · have : read r spi st = read_raw spi st r.address := by
      simp [read, h]
    rw [this, read_raw]
    rcases h1 : spi.okFn st.count with _ | _ <;>
      rcases h2 : spi.okFn (st.count + 1) with _ | _ <;>
      simp [transfer, h1, h2]
  · push_neg at h
    rw [read_cached r spi st (by simpa using h.1) h.2]

theorem extract_of_merge_self (c v S L : Nat) (hSL : S + L ≤ 32) :
    ((((c &&& (0xFFFFFFFF ^^^ (((1 <<< L) - 1) <<< S))) |||
        ((v <<< S) &&& (((1 <<< L) - 1) <<< S)))) &&& (((1 <<< L) - 1) <<< S)) >>> S =
      v &&& ((1 <<< L) - 1) := by
  have h32 : (0xFFFFFFFF : Nat) = 2 ^ 32 - 1 := by norm_num
  rw [h32, Nat.one_shiftLeft]
  apply Nat.eq_of_testBit_eq
  intro i
  simp only [Nat.testBit_shiftRight, Nat.testBit_and, Nat.testBit_or, Nat.testBit_xor,
    Nat.testBit_shiftLeft, Nat.testBit_two_pow_sub_one, Nat.add_sub_cancel_left,
    Nat.le_add_right, decide_True, Bool.true_and]
  by_cases hiL : i < L
  · have h1 : S + i < 32 := by omega
    simp [hiL, h1, Nat.add_sub_cancel_left]
  · simp [hiL]

theorem extract_of_merge_other (c x S L S2 L2 : Nat) (h2 : S2 + L2 ≤ 32)
    (hdisj : (((1 <<< L) - 1) <<< S) &&& (((1 <<< L2) - 1) <<< S2) = 0) :
    ((c &&& (0xFFFFFFFF ^^^ (((1 <<< L) - 1) <<< S))) |||
        (x &&& (((1 <<< L) - 1) <<< S))) &&& (((1 <<< L2) - 1) <<< S2) =
      c &&& (((1 <<< L2) - 1) <<< S2) := by
  have h32 : (0xFFFFFFFF : Nat) = 2 ^ 32 - 1 := by norm_num
  rw [h32, Nat.one_shiftLeft, Nat.one_shiftLeft] at *
  apply Nat.eq_of_testBit_eq
  intro i
  have hd := congrArg (fun n => n.testBit i) hdisj
  simp only [Nat.testBit_and, Nat.testBit_shiftLeft, Nat.testBit_two_pow_sub_one,
    Nat.zero_testBit, Bool.and_eq_false_iff, decide_eq_false_iff_not, not_lt, not_le,
    Bool.and_eq_true, decide_eq_true_eq] at hd
  simp only [Nat.testBit_and, Nat.testBit_or, Nat.testBit_xor, Nat.testBit_shiftLeft,
    Nat.testBit_two_pow_sub_one]
  by_cases hm2 : (decide (S2 ≤ i) && decide (i - S2 < L2)) = true
  · simp only [Bool.and_eq_true, decide_eq_true_eq] at hm2
    have hi32 : i < 32 := by omega
    have hmSf : (decide (S ≤ i) && decide (i - S < L)) = false := by
      simp only [Bool.and_eq_false_iff, decide_eq_false_iff_not, not_lt, not_le]
      omega
    have hnot : (!decide (S ≤ i) || !decide (i - S < L)) = true := by
      rw [← Bool.not_and, hmSf]
      rfl
    simp [hmSf, hnot, hi32, hm2]
  · simp only [Bool.not_eq_true] at hm2
    simp [hm2]

-- Helper lemmas about the converter arithmetic --------------------------------

theorem truncQ_mono {a b : ℚ} (h : a ≤ b) : truncQ a ≤ truncQ b := by
  unfold truncQ
  by_cases ha : 0 ≤ a <;> by_cases hb : 0 ≤ b
  · simp only [ha, hb, if_true]
    exact Int.floor_le_floor h
  · exact absurd (le_trans ha h) hb
  · simp only [ha, hb, if_true, if_false]
    calc ⌈a⌉ ≤ 0 := Int.ceil_le.2 (by push_cast; exact le_of_not_le ha)
    _ ≤ ⌊b⌋ := Int.floor_nonneg.2 hb
  · simp only [ha, hb, if_false]
    exact Int.ceil_le_ceil h

theorem truncQ_le_of_le {q : ℚ} {n : ℤ} (h : q ≤ n) : truncQ q ≤ n := by
  unfold truncQ
  by_cases hq : 0 ≤ q
  · simp only [hq, if_true]
    calc ⌊q⌋ ≤ ⌊(n : ℚ)⌋ := Int.floor_le_floor h
    _ = n := Int.floor_intCast n
  · simp only [hq, if_false]
    exact Int.ceil_le.2 h

theorem le_truncQ_of_le {q : ℚ} {n : ℤ} (hn : 0 ≤ n) (h : (n : ℚ) ≤ q) : n ≤ truncQ q := by
  have hq : 0 ≤ q := le_trans (by exact_mod_cast hn) h
  unfold truncQ
  simp only [hq, if_true]
  exact Int.le_floor.2 h

theorem accel_to_register_le (c : Converter) (a : ℚ) :
    c.accel_to_register a ≤ 65535 := by
  unfold Converter.accel_to_register
  have h1 : max 1 (min (a * 2 ^ 41 / (c.clock * c.clock)) 65535) ≤ (65535 : ℚ) := by
    apply max_le (by norm_num) (min_le_right _ _)
  have h2 : ⌊max 1 (min (a * 2 ^ 41 / (c.clock * c.clock)) 65535)⌋ ≤ (65535 : ℤ) := by
    calc ⌊max 1 (min (a * 2 ^ 41 / (c.clock * c.clock)) 65535)⌋ ≤ ⌊(65535 : ℚ)⌋ :=
      Int.floor_le_floor h1
    _ = 65535 := by norm_num
  omega

theorem mask_lt_two_pow {S L : Nat} (h : S + L ≤ 32) :
    ((1 <<< L) - 1) <<< S < 2 ^ 32 := by
  rw [Nat.one_shiftLeft, Nat.shiftLeft_eq]
  have h1 : (2 ^ L - 1) * 2 ^ S < 2 ^ L * 2 ^ S :=
    Nat.mul_lt_mul_of_pos_right
      (Nat.sub_lt (Nat.pos_pow_of_pos L (by norm_num)) (by norm_num))
      (Nat.pos_pow_of_pos S (by norm_num))
  have h2 : (2 : Nat) ^ L * 2 ^ S = 2 ^ (L + S) := (pow_add 2 L S).symm
  have h3 : (2 : Nat) ^ (L + S) ≤ 2 ^ 32 := Nat.pow_le_pow_right (by norm_num) (by omega)
  omega

theorem merged_lt_two_pow (c y : Nat) {S L : Nat} (h : S + L ≤ 32) :
    (c &&& (0xFFFFFFFF ^^^ (((1 <<< L) - 1) <<< S))) |||
      (y &&& (((1 <<< L) - 1) <<< S)) < 2 ^ 32 := by
  have hm := mask_lt_two_pow h
  have h1 : c &&& (0xFFFFFFFF ^^^ (((1 <<< L) - 1) <<< S)) < 2 ^ 32 := by
    calc c &&& (0xFFFFFFFF ^^^ (((1 <<< L) - 1) <<< S)) ≤
        0xFFFFFFFF ^^^ (((1 <<< L) - 1) <<< S) := Nat.and_le_right
    _ < 2 ^ 32 := Nat.xor_lt_two_pow (by norm_num) hm
  have h2 : y &&& (((1 <<< L) - 1) <<< S) < 2 ^ 32 :=
    lt_of_le_of_lt Nat.and_le_right hm
  exact Nat.or_lt_two_pow h1 h2

theorem accel_to_register_zero (c : Converter) : c.accel_to_register 0 = 1 := by
  unfold Converter.accel_to_register
  have hmin : min ((0 : ℚ) * 2 ^ 41 / (c.clock * c.clock)) 65535 = 0 := by
    rw [zero_mul, zero_div]
    exact min_eq_left (by norm_num)
  rw [hmin]
  norm_num

theorem exBind_ok (spi : Spi) (r : Register) (v : Nat) (st : DriverState)
    (f : DriverState → Except ErrorCode Unit × DriverState)
    (h : spi.okFn st.count = true) :
    exBind (write r v spi st) f = f (write r v spi st).2 := by
  show exBind ((write r v spi st).1, (write r v spi st).2) f = f (write r v spi st).2
  rw [write_result, if_pos h]
  rfl

theorem exBind_err (spi : Spi) (r : Register) (v : Nat) (st : DriverState)
    (f : DriverState → Except ErrorCode Unit × DriverState)
    (h : spi.okFn st.count = false) :
    exBind (write r v spi st) f =
      (Except.error ErrorCode.SPI_TRANSFER_FAILED, (write r v spi st).2) := by
  show exBind ((write r v spi st).1, (write r v spi st).2) f = _
  rw [write_result, h]
  rfl

theorem write_frames_len (r : Register) (v : Nat) (spi : Spi) (s : DriverState) :
    (txFrames (write r v spi s).2.events).length = (txFrames s.events).length + 1 := by
  rw [write_events, txFrames_append, txFrames_triple]
  simp

theorem write_field_frames_len (f : Field) (v : Nat) (spi : Spi) (s : DriverState) :
    (txFrames (write_field f v spi s).2.events).length = (txFrames s.events).length + 1 := by
  rw [write_field_eq]
  exact write_frames_len _ _ _ _

theorem runAll_false (ops : List (DriverState → Except ErrorCode Unit × DriverState))
    (st : DriverState) : (runAll false ops st).1 = false := by
  induction ops generalizing st with
  | nil => rfl
  | cons op rest ih =>
    rw [runAll, Bool.false_and]
    exact ih _

theorem runAll_frames (ops : List (DriverState → Except ErrorCode Unit × DriverState))
    (hops : ∀ op ∈ ops, ∀ s : DriverState,
      (txFrames (op s).2.events).length = (txFrames s.events).length + 1)
    (flag : Bool) (st : DriverState) :
    (txFrames (runAll flag ops st).2.events).length =
      (txFrames st.events).length + ops.length := by
  induction ops generalizing flag st with
  | nil => simp [runAll]
  | cons op rest ih =>
    rw [runAll, ih (fun o ho s => hops o (List.mem_cons_of_mem _ ho) s),
      hops op (List.mem_cons_self op rest) st]
    simp only [List.length_cons]
    omega

theorem default_writes_frames_len (spi : Spi) :
    ∀ op ∈ defaultConfigurationWrites spi, ∀ s : DriverState,
      (txFrames (op s).2.events).length = (txFrames s.events).length + 1 := by
  intro op hop
  simp only [defaultConfigurationWrites, List.mem_cons, List.not_mem_nil, or_false] at hop
  rcases hop with rfl | rfl | rfl | rfl | rfl | rfl | rfl | rfl | rfl | rfl | rfl | rfl |
    rfl | rfl | rfl <;>
    exact fun s => write_frames_len _ _ _ s

theorem getAllGo_false (spi : Spi) (regs : List Register) (acc : List Nat)
    (st : DriverState) : getAllGo spi regs false acc st = (false, acc, st) := by
  induction regs with
  | nil => rfl
  | cons r rest ih => rw [getAllGo, if_neg (by simp)]; exact ih

theorem read_hw (r : Register) (spi : Spi) (st : DriverState)
    (h : r.isVolatile = true ∨ r.access = Access.RO) :
    read r spi st = read_raw spi st r.address := by
  simp [read, h]

theorem read_raw_fail1 (spi : Spi) (st : DriverState) (addr : Nat)
    (h : spi.okFn st.count = false) :
    read_raw spi st addr = (Except.error ErrorCode.SPI_TRANSFER_FAILED,
      { cache := st.cache
        events := st.events ++ [BusEvent.select,
          BusEvent.xfer [addr &&& 0x7F, 0, 0, 0, 0] false, BusEvent.deselect]
        count := st.count + 1 }) := by
  rw [read_raw]
  simp [transfer, h]

theorem accel_to_register_mono (c : Converter) (hc : 0 < c.clock) {x y : ℚ} (h : x ≤ y) :
    c.accel_to_register x ≤ c.accel_to_register y := by
  unfold Converter.accel_to_register
  apply Int.toNat_le_toNat
  apply Int.floor_le_floor
  apply max_le_max le_rfl
  apply min_le_min _ le_rfl
  apply (div_le_div_iff_of_pos_right (mul_pos hc hc)).mpr
  exact mul_le_mul_of_nonneg_right h (by norm_num)

-- Claim C1 --------------------------------------------------------------------

/-- C1 counterexample: `apply_default_configuration` with a transport whose
every transfer fails still puts 15 frames on the bus — every write of its
`is_all_ok` group is attempted (C++ evaluates all arguments of the call) —
instead of the single frame a short-circuiting sequence would produce. -/
theorem C1_apply_default_not_short_circuiting_cex :
    (apply_default_configuration spiFail initialState).1 =
      Except.error ErrorCode.SPI_TRANSFER_FAILED ∧
    (txFrames (apply_default_configuration spiFail initialState).2.events).length = 15 ∧
    (15 : Nat) ≠ 1 := by
  refine ⟨rfl, rfl, by norm_num⟩

/-- C1 amended: the `and_then`-composed Sequencer sequences (here
`set_advanced_acceleration`) and the bulk register read are short-circuiting —
the first failing transfer aborts the remaining steps and the failure
(`SPI_TRANSFER_FAILED`, the only error a write can produce) is returned
verbatim — but the `is_all_ok` groups of the apply-configuration sequences are
not: every write of the group is attempted even when the first fails, and the
group reports `SPI_TRANSFER_FAILED`. -/
theorem C1_sequencing (conv : Converter) (a b c d : ℚ) (spi : Spi) (st : DriverState) :
    (spi.okFn st.count = false →
      (set_advanced_acceleration conv a b c d spi st).1 =
        Except.error ErrorCode.SPI_TRANSFER_FAILED ∧
      (txFrames (set_advanced_acceleration conv a b c d spi st).2.events).length =
        (txFrames st.events).length + 1) ∧
    (spi.okFn st.count = true → spi.okFn (st.count + 1) = false →
      (set_advanced_acceleration conv a b c d spi st).1 =
        Except.error ErrorCode.SPI_TRANSFER_FAILED ∧
      (txFrames (set_advanced_acceleration conv a b c d spi st).2.events).length =
        (txFrames st.events).length + 2) ∧
    (spi.okFn st.count = true → spi.okFn (st.count + 1) = true →
      spi.okFn (st.count + 2) = false →
      (set_advanced_acceleration conv a b c d spi st).1 =
        Except.error ErrorCode.SPI_TRANSFER_FAILED ∧
      (txFrames (set_advanced_acceleration conv a b c d spi st).2.events).length =
        (txFrames st.events).length + 3) ∧
    (spi.okFn st.count = true → spi.okFn (st.count + 1) = true →
      spi.okFn (st.count + 2) = true → spi.okFn (st.count + 3) = false →
      (set_advanced_acceleration conv a b c d spi st).1 =
        Except.error ErrorCode.SPI_TRANSFER_FAILED ∧
      (txFrames (set_advanced_acceleration conv a b c d spi st).2.events).length =
        (txFrames st.events).length + 4) ∧
    (spi.okFn st.count = true → spi.okFn (st.count + 1) = true →
      spi.okFn (st.count + 2) = true → spi.okFn (st.count + 3) = true →
      (set_advanced_acceleration conv a b c d spi st).1 = Except.ok () ∧
      (txFrames (set_advanced_acceleration conv a b c d spi st).2.events).length =
        (txFrames st.events).length + 4) ∧
    (spi.okFn st.count = false →
      (apply_default_configuration spi st).1 =
        Except.error ErrorCode.SPI_TRANSFER_FAILED ∧
      (txFrames (apply_default_configuration spi st).2.events).length =
        (txFrames st.events).length + 15) ∧
    ((∀ n, spi.okFn n = false) →
      (get_all_registers spi st).1 = Except.error ErrorCode.SPI_TRANSFER_FAILED ∧
      (txFrames (get_all_registers spi st).2.events).length =
        (txFrames st.events).length + 1) := by
  refine ⟨?_, ?_, ?_, ?_, ?_, ?_, ?_⟩
  · intro h0
    rw [set_advanced_acceleration, exBind_err spi A1 _ st _ h0]
    exact ⟨rfl, write_frames_len _ _ _ _⟩
  · intro h0 h1
    have h1x : spi.okFn ((write A1 (conv.accel_to_register a) spi st).2.count) = false := by
      rw [write_count]
      exact h1
    rw [set_advanced_acceleration, exBind_ok spi A1 _ st _ h0,
      exBind_err spi AMAX _ _ _ h1x]
    refine ⟨rfl, ?_⟩
    rw [write_frames_len, write_frames_len]
  · intro h0 h1 h2
    have h1x : spi.okFn ((write A1 (conv.accel_to_register a) spi st).2.count) = true := by
      rw [write_count]
      exact h1
    have h2x : spi.okFn ((write AMAX (conv.accel_to_register b) spi
        (write A1 (conv.accel_to_register a) spi st).2).2.count) = false := by
      rw [write_count, write_count, Nat.add_assoc]
      exact h2
    rw [set_advanced_acceleration, exBind_ok spi A1 _ st _ h0,
      exBind_ok spi AMAX _ _ _ h1x, exBind_err spi DMAX _ _ _ h2x]
    refine ⟨rfl, ?_⟩
    rw [write_frames_len, write_frames_len, write_frames_len]
  · intro h0 h1 h2 h3
    have h1x : spi.okFn ((write A1 (conv.accel_to_register a) spi st).2.count) = true := by
      rw [write_count]
      exact h1
    have h2x : spi.okFn ((write AMAX (conv.accel_to_register b) spi
        (write A1 (conv.accel_to_register a) spi st).2).2.count) = true := by
      rw [write_count, write_count, Nat.add_assoc]
      exact h2
    have h3x : spi.okFn ((write DMAX (conv.accel_to_register c) spi
        (write AMAX (conv.accel_to_register b) spi
          (write A1 (conv.accel_to_register a) spi st).2).2).2.count) = false := by
      rw [write_count, write_count, write_count, Nat.add_assoc, Nat.add_assoc]
      exact h3
    rw [set_advanced_acceleration, exBind_ok spi A1 _ st _ h0,
      exBind_ok spi AMAX _ _ _ h1x, exBind_ok spi DMAX _ _ _ h2x, write_result, h3x]
    refine ⟨rfl, ?_⟩
    rw [write_frames_len, write_frames_len, write_frames_len, write_frames_len]
  · intro h0 h1 h2 h3
    have h1x : spi.okFn ((write A1 (conv.accel_to_register a) spi st).2.count) = true := by
      rw [write_count]
      exact h1
    have h2x : spi.okFn ((write AMAX (conv.accel_to_register b) spi
        (write A1 (conv.accel_to_register a) spi st).2).2.count) = true := by
      rw [write_count, write_count, Nat.add_assoc]
      exact h2
    have h3x : spi.okFn ((write DMAX (conv.accel_to_register c) spi
        (write AMAX (conv.accel_to_register b) spi
          (write A1 (conv.accel_to_register a) spi st).2).2).2.count) = true := by
      rw [write_count, write_count, write_count, Nat.add_assoc, Nat.add_assoc]
      exact h3
    rw [set_advanced_acceleration, exBind_ok spi A1 _ st _ h0,
      exBind_ok spi AMAX _ _ _ h1x, exBind_ok spi DMAX _ _ _ h2x, write_result, h3x]
    refine ⟨rfl, ?_⟩
    rw [write_frames_len, write_frames_len, write_frames_len, write_frames_len]
  · intro h
    have hfirst : isOkB (write VSTOP 100 spi st).1 = false := by
      rw [write_result, h]
      rfl
    have hflag : (runAll true (defaultConfigurationWrites spi) st).1 = false := by
      rw [defaultConfigurationWrites, runAll, hfirst, Bool.and_false]
      exact runAll_false _ _
    have hfin : apply_default_configuration spi st =
        (Except.error ErrorCode.SPI_TRANSFER_FAILED,
          (runAll true (defaultConfigurationWrites spi) st).2) := by
      rw [apply_default_configuration, applyDefaultFinish, hflag, if_neg (by simp)]
    rw [hfin]
    refine ⟨rfl, ?_⟩
    rw [runAll_frames _ (default_writes_frames_len spi) true st]
    simp [defaultConfigurationWrites]
  · intro h
    have hfail : ∀ (s : DriverState) (addr : Nat),
        read_raw spi s addr = (Except.error ErrorCode.SPI_TRANSFER_FAILED,
          { cache := s.cache
            events := s.events ++ [BusEvent.select,
              BusEvent.xfer [addr &&& 0x7F, 0, 0, 0, 0] false, BusEvent.deselect]
            count := s.count + 1 }) :=
      fun s addr => read_raw_fail1 spi s addr (h s.count)
    constructor
    · simp [get_all_registers, registerTuple, getAllGo, read_cached, read_hw, hfail,
        getAllGo_false, GCONF, IHOLD_IRUN, CHOPCONF, SW_MODE, RAMPMODE, XACTUAL]
    · simp [get_all_registers, registerTuple, getAllGo, read_cached, read_hw, hfail,
        getAllGo_false, GCONF, IHOLD_IRUN, CHOPCONF, SW_MODE, RAMPMODE, XACTUAL,
        txFrames_append, txFrames_triple]

/-- C1 amended witness: an all-success run of `set_advanced_acceleration`
succeeds, and the bulk read on an always-failing transport short-circuits to
`SPI_TRANSFER_FAILED`. -/
theorem C1_sequencing_witness :
    (set_advanced_acceleration ⟨12000000, 200, 3 / 40⟩ 1 1 1 1 spiOk initialState).1 =
      Except.ok () ∧
    (get_all_registers spiFail initialState).1 =
      Except.error ErrorCode.SPI_TRANSFER_FAILED :=
  ⟨((C1_sequencing ⟨12000000, 200, 3 / 40⟩ 1 1 1 1 spiOk
      initialState).2.2.2.2.1 rfl rfl rfl rfl).1,
   ((C1_sequencing ⟨12000000, 200, 3 / 40⟩ 1 1 1 1 spiFail
      initialState).2.2.2.2.2.2 (fun _ => rfl)).1⟩

-- Claim C2 --------------------------------------------------------------------

/-- C2: for every register address and every 32-bit value, a register write
transmits exactly one 5-byte frame: byte 0 is the address with the write bit
set (`addr | 0x80`), bytes 1–4 are the value most-significant byte first. -/
theorem C2_write_frame (r : Register) (val : Nat) (spi : Spi) (st : DriverState)
    (hval : val < 2 ^ 32) :
    txFrames (write r val spi st).2.events = txFrames st.events ++
      [[r.address ||| 0x80, (val >>> 24) &&& 0xFF, (val >>> 16) &&& 0xFF,
        (val >>> 8) &&& 0xFF, val &&& 0xFF]] ∧
    (writeFrame r.address val).length = 5 := by
  refine ⟨?_, rfl⟩
  rw [write_events, txFrames_append, txFrames_triple, Nat.mod_eq_of_lt hval]
  rfl

/-- C2 witness: writing `0x12345678` to address `0x27` puts exactly
`[0xA7, 0x12, 0x34, 0x56, 0x78]` on the bus. -/
theorem C2_write_frame_witness :
    (0x12345678 : Nat) < 2 ^ 32 ∧
    txFrames (write VMAX 0x12345678 spiOk initialState).2.events =
      [[0xA7, 0x12, 0x34, 0x56, 0x78]] :=
  ⟨by norm_num,
   ((C2_write_frame VMAX 0x12345678 spiOk initialState (by norm_num)).1).trans (by decide)⟩

-- Claim C3 --------------------------------------------------------------------

/-- C3: for every non-volatile writable register and every 32-bit value,
`write` then `read` returns exactly the written value, the read being served
from the shadow cache with no bus transfer (the driver state is untouched). -/
theorem C3_write_read_roundtrip (r : Register) (val : Nat) (spi : Spi) (st : DriverState)
    (hro : r.access ≠ Access.RO) (hvol : r.isVolatile = false) (hval : val < 2 ^ 32) :
    (read r spi (write r val spi st).2).1 = Except.ok val ∧
    (read r spi (write r val spi st).2).2 = (write r val spi st).2 := by
  rw [read_cached r spi (write r val spi st).2 hvol hro]
  refine ⟨?_, rfl⟩
  rw [write_cache]
  have hv : val % 2 ^ 32 = val := Nat.mod_eq_of_lt hval
  simp only [if_pos rfl]
  exact congrArg Except.ok hv

/-- C3 witness: write `0x12345678` to VMAX with a failing transport; the read
still returns the written value from the cache. -/
theorem C3_write_read_roundtrip_witness :
    VMAX.access ≠ Access.RO ∧ VMAX.isVolatile = false ∧
    (read VMAX spiFail (write VMAX 0x12345678 spiFail initialState).2).1 =
      Except.ok 0x12345678 :=
  ⟨by decide, rfl,
   (C3_write_read_roundtrip VMAX 0x12345678 spiFail initialState (by decide) rfl
     (by norm_num)).1⟩

-- Claim C4 --------------------------------------------------------------------

theorem read_field_cached (f : Field) (spi : Spi) (st : DriverState)
    (hvol : f.register.isVolatile = false) (hro : f.register.access ≠ Access.RO) :
    read_field f spi st =
      (Except.ok ((st.cache f.register.address &&& f.mask) >>> f.shift), st) := by
  rw [read_field, read_cached f.register spi st hvol hro]

/-- C4: `write_field(f, v)` then `read_field(f)` returns `v` masked to the
field's width, and any sibling field `g` of the same parent register with a
disjoint bit mask reads back exactly what it read before. -/
theorem C4_write_field_read_field (f g : Field) (v : Nat) (spi : Spi) (st : DriverState)
    (hro : f.register.access ≠ Access.RO) (hvol : f.register.isVolatile = false)
    (hf : f.startBit + f.length ≤ 32) (hg : g.startBit + g.length ≤ 32)
    (hreg : g.register = f.register) (hdisj : f.mask &&& g.mask = 0) (hv : v < 2 ^ 32) :
    (read_field f spi (write_field f v spi st).2).1 =
      Except.ok (v &&& ((1 <<< f.length) - 1)) ∧
    (read_field g spi (write_field f v spi st).2).1 = (read_field g spi st).1 := by
  have hvmod : v % 2 ^ 32 = v := Nat.mod_eq_of_lt hv
  have hmlt : (st.cache f.register.address &&& (0xFFFFFFFF ^^^ f.mask)) |||
      ((v <<< f.shift) &&& f.mask) < 2 ^ 32 :=
    merged_lt_two_pow (st.cache f.register.address) (v <<< f.shift) hf
  have hstate : (write_field f v spi st).2.cache = fun a =>
      if a = f.register.address then
        (st.cache f.register.address &&& (0xFFFFFFFF ^^^ f.mask)) |||
          ((v <<< f.shift) &&& f.mask)
      else st.cache a := by
    rw [write_field_eq, write_cache, hvmod, Nat.mod_eq_of_lt hmlt]
  have hgvol : g.register.isVolatile = false := by rw [hreg]; exact hvol
  have hgro : g.register.access ≠ Access.RO := by rw [hreg]; exact hro
  constructor
  · rw [read_field_cached f spi _ hvol hro, hstate]
    simp only [if_pos rfl]
    exact congrArg Except.ok (extract_of_merge_self (st.cache f.register.address) v
      f.startBit f.length hf)
  · rw [read_field_cached g spi _ hgvol hgro, read_field_cached g spi st hgvol hgro,
      hstate, hreg]
    simp only [if_pos rfl]
    exact congrArg Except.ok (congrArg (fun n => n >>> g.shift)
      (extract_of_merge_other (st.cache f.register.address) (v <<< f.shift)
        f.startBit f.length g.startBit g.length hg hdisj))

/-- C4 witness: on IHOLD_IRUN, write the sibling `i_hold` field to 10, then
`i_run` to 20; `i_run` reads back 20 and `i_hold` reads the same value as
before the `i_run` write. -/
theorem C4_write_field_read_field_witness :
    (read_field IHOLD_IRUN_i_run spiOk
        (write_field IHOLD_IRUN_i_run 20 spiOk
          (write_field IHOLD_IRUN_i_hold 10 spiOk initialState).2).2).1 =
      Except.ok (20 &&& ((1 <<< IHOLD_IRUN_i_run.length) - 1)) ∧
    (read_field IHOLD_IRUN_i_hold spiOk
        (write_field IHOLD_IRUN_i_run 20 spiOk
          (write_field IHOLD_IRUN_i_hold 10 spiOk initialState).2).2).1 =
      (read_field IHOLD_IRUN_i_hold spiOk
        (write_field IHOLD_IRUN_i_hold 10 spiOk initialState).2).1 :=
  C4_write_field_read_field IHOLD_IRUN_i_run IHOLD_IRUN_i_hold 20 spiOk
    (write_field IHOLD_IRUN_i_hold 10 spiOk initialState).2
    (by decide) rfl (by decide) (by decide) rfl (by decide) (by norm_num)

-- Claim C5 --------------------------------------------------------------------

/-- C5 counterexample: with a transport whose transfer fails, `write` returns
the transfer failure yet the cache slot has already been changed from 0 to the
intended value, so the cache is not "left unchanged" by a failed write. -/
theorem C5_failed_write_mutates_cache_cex :
    (write VMAX 100 spiFail initialState).1 = Except.error ErrorCode.SPI_TRANSFER_FAILED ∧
    initialState.cache VMAX.address = 0 ∧
    (write VMAX 100 spiFail initialState).2.cache VMAX.address = 100 := by
  exact ⟨rfl, rfl, rfl⟩

/-- C5 amended: the cache slot is updated to the written value before the bus
transfer, successful or not ("intent", per §7 of the spec); other slots are
untouched, and reads never mutate the cache. -/
theorem C5_cache_updated_optimistically (r q : Register) (val : Nat) (spi : Spi)
    (st : DriverState) (hval : val < 2 ^ 32) :
    (write r val spi st).2.cache r.address = val ∧
    (∀ a, a ≠ r.address → (write r val spi st).2.cache a = st.cache a) ∧
    (read q spi st).2.cache = st.cache := by
  refine ⟨?_, ?_, read_cache_unchanged q spi st⟩
  · rw [write_cache]
    have hv : val % 2 ^ 32 = val := Nat.mod_eq_of_lt hval
    simp only [if_pos rfl]
    exact hv
  · intro a ha
    rw [write_cache]
    simp [ha]

/-- C5 amended witness: concrete failing write into VMAX, concrete read of
XACTUAL. -/
theorem C5_cache_updated_optimistically_witness :
    (100 : Nat) < 2 ^ 32 ∧
    (write VMAX 100 spiFail initialState).2.cache VMAX.address = 100 ∧
    (read XACTUAL spiFail initialState).2.cache = initialState.cache :=
  ⟨by norm_num,
   (C5_cache_updated_optimistically VMAX XACTUAL 100 spiFail initialState (by norm_num)).1,
   (C5_cache_updated_optimistically VMAX XACTUAL 100 spiFail initialState
     (by norm_num)).2.2⟩

-- Claim C6 --------------------------------------------------------------------

/-- C6 counterexample: `get_shadow` on the out-of-range address 200 returns
`REGISTER_ACCESS_FAILED`, not the `INVALID_PARAMETER` the claim states (the
repository's own test expects `REGISTER_ACCESS_FAILED` as well). -/
theorem C6_get_shadow_error_code_cex :
    get_shadow initialState 200 = Except.error ErrorCode.REGISTER_ACCESS_FAILED ∧
    ErrorCode.REGISTER_ACCESS_FAILED ≠ ErrorCode.INVALID_PARAMETER := by
  exact ⟨rfl, by decide⟩

/-- C6 amended: `get_shadow(address)` returns the cache slot for every address
in 0–127 and a `REGISTER_ACCESS_FAILED` error for every address ≥ 128. -/
theorem C6_get_shadow_spec (st : DriverState) (addr : Nat) :
    (addr < 128 → get_shadow st addr = Except.ok (st.cache addr)) ∧
    (128 ≤ addr → get_shadow st addr = Except.error ErrorCode.REGISTER_ACCESS_FAILED) := by
  constructor <;> intro h
  · rw [get_shadow, if_neg (by omega)]
  · rw [get_shadow, if_pos h]

/-- C6 amended witness: address 5 hits the cache, address 200 errors. -/
theorem C6_get_shadow_spec_witness :
    get_shadow initialState 5 = Except.ok (initialState.cache 5) ∧
    get_shadow initialState 200 = Except.error ErrorCode.REGISTER_ACCESS_FAILED :=
  ⟨(C6_get_shadow_spec initialState 5).1 (by norm_num),
   (C6_get_shadow_spec initialState 200).2 (by norm_num)⟩

-- Claim C7 --------------------------------------------------------------------

/-- C7 counterexample: at a 50 mΩ sense resistor and 0.244 A, the source's
truncating conversion gives code 0, while the claim's rounding formula gives 1
(the intermediate value `ratio * 32 ≈ 1.699` rounds to 2 but `ratio * 32 - 1 ≈
0.699` truncates to 0, far from any float-rounding boundary). -/
theorem C7_current_to_cs_round_cex :
    Converter.current_to_cs ⟨12000000, 200, 1 / 20⟩ (61 / 250) = 0 ∧
    current_to_cs_specRound ⟨12000000, 200, 1 / 20⟩ (61 / 250) = 1 := by
  have hq : ((61 / 250 : ℚ) / ((vFsF / (1 / 20)) / sqrt2F) * 32) =
      5789282104 / 3407871875 := by
    rw [vFsF, sqrt2F]
    norm_num
  constructor
  · show (max 0 (min (truncQ ((61 / 250 : ℚ) / ((vFsF / (1 / 20)) / sqrt2F) * 32 - 1))
      31)).toNat = 0
    rw [hq]
    have h1 : truncQ ((5789282104 / 3407871875 : ℚ) - 1) = 0 := by
      rw [truncQ, if_pos (by norm_num)]
      norm_num [Int.floor_eq_iff]
    rw [h1]
    rfl
  · show (max 0 (min (round ((61 / 250 : ℚ) / ((vFsF / (1 / 20)) / sqrt2F) * 32) - 1)
      31)).toNat = 1
    rw [hq]
    have h1 : round ((5789282104 / 3407871875 : ℚ)) = 2 := by
      norm_num [round_eq, Int.floor_eq_iff]
    rw [h1]
    rfl

/-- C7 amended: `current_to_cs` maps current to
`clamp(trunc(current / rms_full_scale * 32 − 1), 0, 31)` — truncation toward
zero, not rounding — with `rms_full_scale = (0.325f / sense) / sqrt2f` at the
float constants' exact binary32 values; it is monotonic non-decreasing,
negative or zero current yields 0, current at or above full scale yields 31,
and the result never exceeds 31. -/
theorem C7_current_to_cs_truncation (c : Converter) (hr : 0 < c.rSense) :
    (∀ x y : ℚ, x ≤ y → c.current_to_cs x ≤ c.current_to_cs y) ∧
    (∀ x : ℚ, x ≤ 0 → c.current_to_cs x = 0) ∧
    (∀ x : ℚ, (vFsF / c.rSense) / sqrt2F ≤ x → c.current_to_cs x = 31) ∧
    (∀ x : ℚ, c.current_to_cs x ≤ 31) := by
  have hpos : 0 < (vFsF / c.rSense) / sqrt2F :=
    div_pos (div_pos (by rw [vFsF]; norm_num) hr) (by rw [sqrt2F]; norm_num)
  have hmono : ∀ x y : ℚ, x ≤ y → c.current_to_cs x ≤ c.current_to_cs y := by
    intro x y h
    unfold Converter.current_to_cs
    apply Int.toNat_le_toNat
    apply max_le_max le_rfl
    apply min_le_min _ le_rfl
    apply truncQ_mono
    apply sub_le_sub_right
    apply mul_le_mul_of_nonneg_right _ (by norm_num)
    exact (div_le_div_iff_of_pos_right hpos).mpr h
  have hzero : c.current_to_cs 0 = 0 := by
    unfold Converter.current_to_cs
    rw [zero_div, zero_mul, zero_sub]
    have h1 : truncQ (-1 : ℚ) = -1 := by
      rw [truncQ, if_neg (by norm_num)]
      exact_mod_cast Int.ceil_intCast (α := ℚ) (-1)
    rw [h1]
    rfl
  refine ⟨hmono, ?_, ?_, ?_⟩
  · intro x hx
    have := hmono x 0 hx
    omega
  · intro x hx
    unfold Converter.current_to_cs
    have hratio : (1 : ℚ) ≤ x / ((vFsF / c.rSense) / sqrt2F) := (one_le_div hpos).mpr hx
    have h32 : (32 : ℚ) ≤ x / ((vFsF / c.rSense) / sqrt2F) * 32 := by
      have := mul_le_mul_of_nonneg_right hratio (show (0 : ℚ) ≤ 32 by norm_num)
      linarith
    have htr : (31 : ℤ) ≤ truncQ (x / ((vFsF / c.rSense) / sqrt2F) * 32 - 1) := by
      apply le_truncQ_of_le (by norm_num)
      push_cast
      linarith
    rw [min_eq_right htr, max_eq_right (by norm_num)]
    rfl
  · intro x
    unfold Converter.current_to_cs
    have h1 : max 0 (min (truncQ (x / ((vFsF / c.rSense) / sqrt2F) * 32 - 1)) 31) ≤
        (31 : ℤ) :=
      max_le (by norm_num) (min_le_right _ _)
    omega

/-- C7 amended witness: at the default 75 mΩ sense resistor, 0 A maps to code
0 and 10 A (overcurrent) maps to code 31. -/
theorem C7_current_to_cs_truncation_witness :
    Converter.current_to_cs ⟨12000000, 200, 3 / 40⟩ 0 = 0 ∧
    Converter.current_to_cs ⟨12000000, 200, 3 / 40⟩ 10 = 31 :=
  ⟨(C7_current_to_cs_truncation ⟨12000000, 200, 3 / 40⟩ (by norm_num)).2.1 0 le_rfl,
   (C7_current_to_cs_truncation ⟨12000000, 200, 3 / 40⟩ (by norm_num)).2.2.1 10
     (by rw [vFsF, sqrt2F]; norm_num)⟩

-- Claim C8 --------------------------------------------------------------------

/-- C8: `accel_to_register` computes `clamp(accel * 2^41 / clock^2, 1, 65535)`
(truncated to an integer register value): it is monotonic non-decreasing,
maps 0 to 1 (never 0), a very large acceleration yields 65535, and
`set_advanced_acceleration` with a stop-deceleration input of 0 writes a D1
register value of 1, never 0. -/
theorem C8_accel_to_register_spec :
    (∀ (c : Converter), 0 < c.clock → ∀ x y : ℚ, x ≤ y →
      c.accel_to_register x ≤ c.accel_to_register y) ∧
    (∀ c : Converter, c.accel_to_register 0 = 1) ∧
    Converter.accel_to_register ⟨12000000, 200, 3 / 40⟩ (10 ^ 7) = 65535 ∧
    (∀ (conv : Converter) (a b d : ℚ) (st : DriverState),
      txFrames (set_advanced_acceleration conv a b d 0 spiOk st).2.events =
        txFrames st.events ++
          [writeFrame A1.address (conv.accel_to_register a),
           writeFrame AMAX.address (conv.accel_to_register b),
           writeFrame DMAX.address (conv.accel_to_register d),
           writeFrame D1.address 1] ∧
      (set_advanced_acceleration conv a b d 0 spiOk st).2.cache D1.address = 1) := by
  refine ⟨fun c hc x y h => accel_to_register_mono c hc h,
    accel_to_register_zero, ?_, ?_⟩
  · show (⌊max 1 (min (((10 : ℚ) ^ 7) * 2 ^ 41 / ((12000000 : ℚ) * 12000000)) 65535)⌋).toNat
      = 65535
    rw [min_eq_right (by norm_num), max_eq_right (by norm_num)]
    norm_num
    decide
  · intro conv a b d st
    have hmod : ∀ x : ℚ, conv.accel_to_register x % 2 ^ 32 = conv.accel_to_register x :=
      fun x => Nat.mod_eq_of_lt (lt_of_le_of_lt (accel_to_register_le conv x)
        (by norm_num))
    have hclamp : max 1 (min (conv.accel_to_register 0) 65535) = 1 := by
      rw [accel_to_register_zero]
      omega
    rw [set_advanced_acceleration, hclamp,
      exBind_ok spiOk A1 _ st _ rfl,
      exBind_ok spiOk AMAX _ _ _ rfl,
      exBind_ok spiOk DMAX _ _ _ rfl]
    constructor
    · simp only [write_events, txFrames_append, txFrames_triple, hmod]
      simp [List.append_assoc]
    · rw [write_cache]
      simp

/-- C8 witness: at the default calibration, the monotonicity instance at
0 ≤ 1 and the D1 = 1 behavior at concrete inputs. -/
theorem C8_accel_to_register_spec_witness :
    Converter.accel_to_register ⟨12000000, 200, 3 / 40⟩ 0 ≤
      Converter.accel_to_register ⟨12000000, 200, 3 / 40⟩ 1 ∧
    (set_advanced_acceleration ⟨12000000, 200, 3 / 40⟩ 0 0 0 0 spiOk initialState).2.cache
      D1.address = 1 :=
  ⟨C8_accel_to_register_spec.1 ⟨12000000, 200, 3 / 40⟩ (by norm_num) 0 1 (by norm_num),
   (C8_accel_to_register_spec.2.2.2 ⟨12000000, 200, 3 / 40⟩ 0 0 0 initialState).2⟩

-- Balanced-bracket lemmas for C10 ---------------------------------------------

theorem balancedB_append_triple (l : List BusEvent) (t : List Nat) (b : Bool)
    (h : balancedB l = true) :
    balancedB (l ++ [BusEvent.select, BusEvent.xfer t b, BusEvent.deselect]) = true := by
  induction l using balancedB.induct with
  | _ => simp_all [balancedB]

theorem write_balanced (r : Register) (v : Nat) (spi : Spi) (s : DriverState)
    (h : balancedB s.events = true) : balancedB (write r v spi s).2.events = true := by
  rw [write_events]
  exact balancedB_append_triple _ _ _ h

theorem read_raw_events (spi : Spi) (st : DriverState) (addr : Nat) :
    (read_raw spi st addr).2.events = st.events ++ [BusEvent.select,
      BusEvent.xfer [addr &&& 0x7F, 0, 0, 0, 0] (spi.okFn st.count), BusEvent.deselect] ∨
    (read_raw spi st addr).2.events = (st.events ++ [BusEvent.select,
      BusEvent.xfer [addr &&& 0x7F, 0, 0, 0, 0] (spi.okFn st.count), BusEvent.deselect]) ++
      [BusEvent.select, BusEvent.xfer [0, 0, 0, 0, 0] (spi.okFn (st.count + 1)),
       BusEvent.deselect] := by
  rw [read_raw]
  rcases h1 : spi.okFn st.count with _ | _
  · left
    simp [transfer, h1]
  · right
    rcases h2 : spi.okFn (st.count + 1) with _ | _ <;> simp [transfer, h1, h2]

theorem read_raw_balanced (spi : Spi) (st : DriverState) (addr : Nat)
    (h : balancedB st.events = true) :
    balancedB (read_raw spi st addr).2.events = true := by
  rcases read_raw_events spi st addr with he | he <;> rw [he]
  · exact balancedB_append_triple _ _ _ h
  · exact balancedB_append_triple _ _ _ (balancedB_append_triple _ _ _ h)

theorem read_balanced (r : Register) (spi : Spi) (st : DriverState)
    (h : balancedB st.events = true) : balancedB (read r spi st).2.events = true := by
  by_cases hc : r.isVolatile = true ∨ r.access = Access.RO
  · rw [read_hw r spi st hc]
    exact read_raw_balanced spi st r.address h
  · push_neg at hc
    rw [read_cached r spi st (by simpa using hc.1) hc.2]
    exact h

theorem runAll_balanced (ops : List (DriverState → Except ErrorCode Unit × DriverState))
    (hops : ∀ op ∈ ops, ∀ s : DriverState,
      balancedB s.events = true → balancedB (op s).2.events = true)
    (flag : Bool) (st : DriverState) (h : balancedB st.events = true) :
    balancedB (runAll flag ops st).2.events = true := by
  induction ops generalizing flag st with
  | nil => exact h
  | cons op rest ih =>
    rw [runAll]
    exact ih (fun o ho s hs => hops o (List.mem_cons_of_mem _ ho) s hs) _ _
      (hops op (List.mem_cons_self op rest) st h)

theorem default_writes_balanced (spi : Spi) :
    ∀ op ∈ defaultConfigurationWrites spi, ∀ s : DriverState,
      balancedB s.events = true → balancedB (op s).2.events = true := by
  intro op hop
  simp only [defaultConfigurationWrites, List.mem_cons, List.not_mem_nil, or_false] at hop
  rcases hop with rfl | rfl | rfl | rfl | rfl | rfl | rfl | rfl | rfl | rfl | rfl | rfl |
    rfl | rfl | rfl <;>
    exact fun s hs => write_balanced _ _ _ s hs

theorem apply_default_configuration_balanced (spi : Spi) (st : DriverState)
    (h : balancedB st.events = true) :
    balancedB (apply_default_configuration spi st).2.events = true := by
  rw [apply_default_configuration, applyDefaultFinish]
  by_cases hg : (runAll true (defaultConfigurationWrites spi) st).1 = true
  · rw [if_pos hg]
    exact write_balanced _ _ _ _
      (runAll_balanced _ (default_writes_balanced spi) true st h)
  · rw [if_neg hg]
    exact runAll_balanced _ (default_writes_balanced spi) true st h

theorem getAllGo_balanced (spi : Spi) (regs : List Register) :
    ∀ (success : Bool) (acc : List Nat) (st : DriverState),
      balancedB st.events = true →
      balancedB (getAllGo spi regs success acc st).2.2.events = true := by
  induction regs with
  | nil => intro success acc st h; exact h
  | cons r rest ih =>
    intro success acc st h
    rw [getAllGo]
    by_cases hs : success = true
    · rw [if_pos hs]
      have hb1 : balancedB (read r spi st).2.events = true := read_balanced r spi st h
      rcases hr : read r spi st with ⟨res, st1⟩
      rw [hr] at hb1
      cases res with
      | ok v => exact ih true (acc ++ [v]) st1 hb1
      | error e => exact ih false acc st1 hb1
    · rw [if_neg hs]
      exact ih false acc st h

theorem get_all_registers_balanced (spi : Spi) (st : DriverState)
    (h : balancedB st.events = true) :
    balancedB (get_all_registers spi st).2.events = true := by
  have hb : balancedB (getAllGo spi registerTuple true [] st).2.2.events = true :=
    getAllGo_balanced spi registerTuple true [] st h
  rw [get_all_registers]
  rcases hg : getAllGo spi registerTuple true [] st with ⟨flag, acc, st1⟩
  rw [hg] at hb
  cases flag
  · exact hb
  · exact hb

-- Claim C9 --------------------------------------------------------------------

/-- C9 counterexample: address `0x12` (TSTEP — a valid chip address in the
`RegAddress` enum that is not part of `register_tuple`, hence outside the
valid register set of the dispatch tables) makes `set_register_value` return
`REGISTER_ACCESS_FAILED` through its null write-table entry, not the
`INVALID_PARAMETER` the claim demands for addresses outside the set. -/
theorem C9_unregistered_write_error_cex :
    (set_register_value 0x12 0 spiOk initialState).1 =
      Except.error ErrorCode.REGISTER_ACCESS_FAILED ∧
    ErrorCode.REGISTER_ACCESS_FAILED ≠ ErrorCode.INVALID_PARAMETER := by
  exact ⟨rfl, by decide⟩

/-- C9 amended: reading or writing an address ≥ 128 returns
`INVALID_PARAMETER`; reading an address < 128 with no read-table entry
returns `INVALID_PARAMETER`; writing an address < 128 with no write-table
entry — whether the register is read-only (GSTAT) or simply unregistered —
returns `REGISTER_ACCESS_FAILED`. -/
theorem C9_dynamic_dispatch_errors (addr val : Nat) (spi : Spi) (st : DriverState) :
    (128 ≤ addr →
      get_register_value addr spi st = (Except.error ErrorCode.INVALID_PARAMETER, st) ∧
      set_register_value addr val spi st =
        (Except.error ErrorCode.INVALID_PARAMETER, st)) ∧
    (addr < 128 → registerReadTable addr = none →
      get_register_value addr spi st = (Except.error ErrorCode.INVALID_PARAMETER, st)) ∧
    (addr < 128 → registerSetTable addr = none →
      set_register_value addr val spi st =
        (Except.error ErrorCode.REGISTER_ACCESS_FAILED, st)) ∧
    registerSetTable GSTAT.address = none ∧
    registerReadTable GSTAT.address = some GSTAT ∧
    registerSetTable 0x12 = none := by
  refine ⟨?_, ?_, ?_, by decide, by decide, by decide⟩
  · intro h
    constructor
    · rw [get_register_value, if_pos h]
    · rw [set_register_value, if_pos h]
  · intro h hnone
    rw [get_register_value, if_neg (by omega), hnone]
  · intro h hnone
    rw [set_register_value, if_neg (by omega), hnone]

/-- C9 amended witness: address 200 (out of range) on both paths, read of
unregistered VDCMIN (0x33), write of unregistered TSTEP (0x12), write of
read-only GSTAT (0x01). -/
theorem C9_dynamic_dispatch_errors_witness :
    get_register_value 200 spiOk initialState =
      (Except.error ErrorCode.INVALID_PARAMETER, initialState) ∧
    get_register_value 0x33 spiOk initialState =
      (Except.error ErrorCode.INVALID_PARAMETER, initialState) ∧
    set_register_value 0x12 0 spiOk initialState =
      (Except.error ErrorCode.REGISTER_ACCESS_FAILED, initialState) ∧
    set_register_value 0x01 5 spiOk initialState =
      (Except.error ErrorCode.REGISTER_ACCESS_FAILED, initialState) :=
  ⟨((C9_dynamic_dispatch_errors 200 0 spiOk initialState).1 (by norm_num)).1,
   (C9_dynamic_dispatch_errors 0x33 0 spiOk initialState).2.1 (by norm_num) (by decide),
   (C9_dynamic_dispatch_errors 0x12 0 spiOk initialState).2.2.1 (by norm_num) (by decide),
   (C9_dynamic_dispatch_errors 0x01 5 spiOk initialState).2.2.1 (by norm_num) (by decide)⟩

-- Claim C10 -------------------------------------------------------------------

/-- C10: every bus transaction brackets each transfer in a balanced
select/`xfer`/deselect triple — deselect is always invoked after select,
including when the transfer fails (the ∀ over the transport oracle covers
every failure pattern), so no operation ever leaves the bus selected. -/
theorem C10_bus_never_left_selected (r : Register) (f : Field) (v : Nat) (spi : Spi)
    (st : DriverState) (h : balancedB st.events = true) :
    balancedB (write r v spi st).2.events = true ∧
    balancedB (read r spi st).2.events = true ∧
    balancedB (write_field f v spi st).2.events = true ∧
    balancedB (apply_default_configuration spi st).2.events = true ∧
    balancedB (get_all_registers spi st).2.events = true := by
  refine ⟨write_balanced r v spi st h, read_balanced r spi st h, ?_,
    apply_default_configuration_balanced spi st h, get_all_registers_balanced spi st h⟩
  rw [write_field_eq]
  exact write_balanced _ _ _ _ h

/-- C10 witness: concrete runs on an always-failing transport (a failed write,
a failed two-frame read, the full default-configuration sequence) leave a
balanced event log. -/
theorem C10_bus_never_left_selected_witness :
    balancedB (write VMAX 5 spiFail initialState).2.events = true ∧
    balancedB (read XACTUAL spiFail initialState).2.events = true ∧
    balancedB (apply_default_configuration spiFail initialState).2.events = true :=
  ⟨(C10_bus_never_left_selected VMAX IHOLD_IRUN_i_run 5 spiFail initialState rfl).1,
   (C10_bus_never_left_selected XACTUAL IHOLD_IRUN_i_run 5 spiFail initialState rfl).2.1,
   (C10_bus_never_left_selected VMAX IHOLD_IRUN_i_run 5 spiFail
     initialState rfl).2.2.2.1⟩

end Tmcxx
